import Mathlib

/-!
Verification of the Lumiere mentor-portal core (src/app.py) against its
natural-language specification.  The Python source is shallowly embedded:
pure helpers become Lean functions, the Airtable store becomes an explicit
query oracle, and the Streamlit session state becomes a record acted on by
a step function.  Machine integers do not occur; Python ints are Nat/Int.
-/

namespace MentorPortal

/-! ## Python string primitives used by the source -/

/-- Python str.lower for the ASCII range (all inputs in the modelled
call sites are ASCII). -/
def pyLower (s : String) : String :=
  String.mk (s.toList.map Char.toLower)

/-- Python str.split(sep) for a one-character separator: always returns
at least one piece, and an empty string yields one empty piece. -/
def splitOnChar (sep : Char) : List Char → List (List Char)
  | [] => [[]]
  | c :: cs =>
    if c = sep then [] :: splitOnChar sep cs
    else
      match splitOnChar sep cs with
      | [] => [[c]]
      | p :: ps => (c :: p) :: ps

/-- Characters Python str.strip() removes by default. -/
def pySpaceChar (c : Char) : Bool :=
  c = ' ' || c = '\t' || c = '\n' || c = '\r' || c = '\x0b' || c = '\x0c'

/-- Python str.strip() with no arguments: drop whitespace at both ends. -/
def pyStrip (s : String) : String :=
  String.mk (((s.toList.dropWhile pySpaceChar).reverse.dropWhile pySpaceChar).reverse)

/-- Python str.strip(chars): drop any of the given characters at both ends. -/
def pyStripChars (chars : List Char) (s : String) : String :=
  String.mk (((s.toList.dropWhile (fun c => chars.contains c)).reverse.dropWhile
      (fun c => chars.contains c)).reverse)

/-- needle occurs at the start of hay. -/
def listStartsWith : List Char → List Char → Bool
  | [], _ => true
  | _ :: _, [] => false
  | a :: as, b :: bs => a = b && listStartsWith as bs

/-- needle occurs somewhere inside hay (Python `needle in hay`). -/
def listHasSub (needle : List Char) : List Char → Bool
  | [] => listStartsWith needle []
  | b :: bs => listStartsWith needle (b :: bs) || listHasSub needle bs

/-- Python substring containment test `needle in hay`. -/
def pyContains (hay needle : String) : Bool :=
  listHasSub needle.toList hay.toList

/-- Python string < : lexicographic on code points. -/
def listLt : List Char → List Char → Bool
  | [], [] => false
  | [], _ :: _ => true
  | _ :: _, [] => false
  | a :: as, b :: bs => if a = b then listLt as bs else decide (a.val < b.val)

def pyStrLt (s t : String) : Bool :=
  listLt s.toList t.toList

/-! ## Stable sorting, as Python list.sort / sorted

Python sort is stable; for a strict comparison derived from a key the
stable result is unique, so insertion sort reproduces it.  `sortByLt`
keeps an element before every element it is not strictly greater than,
matching stability of list.sort (and, with the flipped comparison,
of sorted(..., reverse=True)). -/

def insertByLt {α : Type} (lt : α → α → Bool) (x : α) : List α → List α
  | [] => [x]
  | y :: ys => if lt y x then y :: insertByLt lt x ys else x :: y :: ys

def sortByLt {α : Type} (lt : α → α → Bool) : List α → List α
  | [] => []
  | x :: xs => insertByLt lt x (sortByLt lt xs)

/-! ## Token service (src/app.py lines 34-49)

The source delegates to itsdangerous URLSafeTimedSerializer.  A wire
token either decodes into a (payload, timestamp, signature) triple or is
structurally malformed; itsdangerous raises BadSignature for a malformed
token or a signature mismatch and SignatureExpired when the age exceeds
max_age (signature checked first).  The HMAC itself is abstracted as a
deterministic function of (secret, salt, payload, timestamp): every
theorem below is proved for an arbitrary such function. -/

inductive TokenWire where
  | parsed (payload : String) (timestamp : Nat) (sig : String)
  | garbage (raw : String)

inductive LoadError where
  | badSignature
  | signatureExpired

/-- itsdangerous URLSafeTimedSerializer.loads with a max_age, returning the
raised error instead of raising.  Age is now - timestamp clamped at 0
(a token stamped in the future has age ≤ 0 in the source as well). -/
def itsdangerousLoads (sign : String → String → String → Nat → String)
    (secret salt : String) (maxAge now : Nat) :
    TokenWire → Except LoadError String
  | TokenWire.garbage _ => Except.error LoadError.badSignature
  | TokenWire.parsed payload ts sg =>
    if sg = sign secret salt payload ts then
      if now - ts > maxAge then Except.error LoadError.signatureExpired
      else Except.ok payload
    else Except.error LoadError.badSignature

/-- generate_magic_token (src/app.py lines 37-40): sign the email with the
fixed salt "magic-link" at the issuance time. -/
def generate_magic_token (sign : String → String → String → Nat → String)
    (secret email : String) (now : Nat) : TokenWire :=
  TokenWire.parsed email now (sign secret "magic-link" email now)

/-- verify_magic_token (src/app.py lines 42-49): loads with salt
"magic-link"; SignatureExpired and BadSignature are caught and become
None.  max_age defaults to 3600 at the call site. -/
def verify_magic_token (sign : String → String → String → Nat → String)
    (secret : String) (token : TokenWire) (maxAge now : Nat) : Option String :=
  match itsdangerousLoads sign secret "magic-link" maxAge now token with
  | Except.ok email => some email
  | Except.error _ => none

/-! ## Dates (Python datetime as used by the source)

The source only ever builds datetimes via datetime.strptime(s, "%Y-%m-%d")
(midnight of a calendar day) and datetime.now(), and compares them with <.
Python datetime comparison is lexicographic on (year, month, day, time),
so a datetime is modelled as a calendar date plus an abstract time-of-day
and compared lexicographically. -/

structure PyDate where
  year : Nat
  month : Nat
  day : Nat
deriving DecidableEq, Repr

/-- Python date < (lexicographic on year, month, day). -/
def dateLt (a b : PyDate) : Bool :=
  if a.year < b.year then true
  else if b.year < a.year then false
  else if a.month < b.month then true
  else if b.month < a.month then false
  else decide (a.day < b.day)

structure PyDateTime where
  date : PyDate
  timeOfDay : Nat
deriving DecidableEq, Repr

/-- Python datetime < . -/
def dtLt (a b : PyDateTime) : Bool :=
  if dateLt a.date b.date then true
  else if dateLt b.date a.date then false
  else decide (a.timeOfDay < b.timeOfDay)

def natOfDigits (l : List Char) : Nat :=
  l.foldl (fun a c => a * 10 + (c.toNat - 48)) 0

/-- The %m directive of Python strptime: one or two digits, value 1..12
(regex 1[0-2]|0[1-9]|[1-9], which over one- and two-digit strings is
exactly the nonzero values up to 12). -/
def parseMonthPart (l : List Char) : Option Nat :=
  if l.all Char.isDigit && (l.length = 1 || l.length = 2) then
    if 1 ≤ natOfDigits l ∧ natOfDigits l ≤ 12 then some (natOfDigits l) else none
  else none

/-- The %d directive of Python strptime: one or two digits, value 1..31
(regex 3[01]|[12]\d|0[1-9]|[1-9]). -/
def parseDayPart (l : List Char) : Option Nat :=
  if l.all Char.isDigit && (l.length = 1 || l.length = 2) then
    if 1 ≤ natOfDigits l ∧ natOfDigits l ≤ 31 then some (natOfDigits l) else none
  else none

def isLeapYear (y : Nat) : Bool :=
  y % 4 == 0 && (y % 100 != 0 || y % 400 == 0)

def daysInMonth (y m : Nat) : Nat :=
  if m = 2 then (if isLeapYear y then 29 else 28)
  else if m = 4 ∨ m = 6 ∨ m = 9 ∨ m = 11 then 30
  else 31

/-- datetime.strptime(s, "%Y-%m-%d") as an Option: %Y is exactly four
digits, the literal separators are the two dashes, the whole string must
be consumed, and the datetime constructor validates the day against the
month length (and requires year ≥ 1).  Returns none where the source
raises ValueError. -/
def parseYmd (s : String) : Option PyDate :=
  match splitOnChar '-' s.toList with
  | [ys, ms, ds] =>
    if ys.all Char.isDigit && ys.length == 4 then
      match parseMonthPart ms, parseDayPart ds with
      | some m, some d =>
        if 1 ≤ natOfDigits ys then
          if d ≤ daysInMonth (natOfDigits ys) m then
            some (PyDate.mk (natOfDigits ys) m d)
          else none
        else none
      | _, _ => none
    else none
  | _ => none

/-! ## Airtable values and records

A raw Airtable field value is null, a JSON string, a number, a boolean,
an attachment object (of which the source reads the "filename" and "url"
keys, either possibly absent), or a list of values (lookup/rollup columns
and attachment columns). -/

inductive AValue where
  | null
  | str (s : String)
  | int (n : Int)
  | bool (b : Bool)
  | att (filename url : Option String)
  | list (vs : List AValue)

/-- Python truthiness of a raw value. -/
def AValue.pyTruthy : AValue → Bool
  | AValue.null => false
  | AValue.str s => !(s == "")
  | AValue.int n => !(n == 0)
  | AValue.bool b => b
  | AValue.att _ _ => true
  | AValue.list vs => !vs.isEmpty

def AValue.isList : AValue → Bool
  | AValue.list _ => true
  | _ => false

/-- A raw Airtable record: id, createdTime and the fields object. -/
structure RawRecord where
  id : String
  createdTime : String
  fields : List (String × AValue)

/-- Python record["fields"].get(key, dflt). -/
def getField (r : RawRecord) (key : String) (dflt : AValue) : AValue :=
  match r.fields.find? (fun kv => kv.1 == key) with
  | some kv => kv.2
  | none => dflt

/-- Fields the source reads as plain strings (dates, statuses, note
texts); Airtable serves these columns as JSON strings. -/
def getStrField (r : RawRecord) (key : String) : String :=
  match getField r key (AValue.str "") with
  | AValue.str s => s
  | _ => ""

/-! ## Record normalizer (_parse_student_record, src/app.py lines 327-382) -/

/-- The unwrap helper inside _parse_student_record: a list becomes its
first element (or the default when empty), None becomes the default, and
a string is stripped of stray bracket/quote characters at both ends. -/
def unwrap (val dflt : AValue) : AValue :=
  match (match (match val with
                | AValue.list vs => (match vs with | [] => dflt | w :: _ => w)
                | _ => val) with
         | AValue.null => dflt
         | v1 => v1) with
  | AValue.str s => AValue.str (pyStripChars ['[', ']', '\x27', '"'] s)
  | v2 => v2

/-- The canonical student record produced by _parse_student_record; field
names follow the source dict keys. -/
structure StudentRecord where
  id : String
  mentor_emails : List String
  name : AValue
  research_area : AValue
  city : AValue
  graduation_year : AValue
  mentor_confirmation : AValue
  background_shared : AValue
  expected_meetings : AValue
  completed_meetings : AValue
  notes_summary : AValue
  hours_recorded : AValue
  foundation_student : AValue
  tuition_paid : AValue
  program_manager_email : AValue
  program_manager_name : AValue
  revised_final_paper_due : AValue
  student_no_shows : AValue
  reason_for_interest : AValue
  white_label : AValue
  previous_coursework : AValue
  interview_notes : AValue
  preferred_name : AValue
  student_status : AValue
  current_grade : AValue
  country : AValue
  writing_coach_name : AValue
  writing_coach_email : AValue
  publication_specialist_name : AValue
  publication_specialist_email : AValue
  publication_marker : AValue
  publication_status : AValue
  mentor_hourly_rate : AValue
  evaluation_form_link : AValue
  revised_paper_upload : AValue
  mentor_payment_status : AValue
  payment_date_1 : AValue
  payment_date_2 : AValue
  payment_date_3 : AValue

/-- _parse_student_record (src/app.py lines 327-382), with the remote
column names of the STUDENT_FIELDS map inlined.  The mentor email list
keeps the truthy string entries stripped and lower-cased (a non-string
entry would raise in the source and be swallowed by the gateway except
clause; such records never reach a parsed StudentRecord, so the string
case is the one embedded). -/
def parse_student_record (record : RawRecord) : StudentRecord :=
  { id := record.id
    mentor_emails :=
      (match getField record "Mentor Email" (AValue.list []) with
       | AValue.list vs => vs
       | v => [v]).filterMap (fun e =>
        match e with
        | AValue.str s => if s = "" then none else some (pyLower (pyStrip s))
        | _ => none)
    name := getField record "Student Cohort Application Tracker" (AValue.str "Unknown")
    research_area := getField record "Research Area - First Preference" (AValue.str "")
    city := getField record "City of Residence" (AValue.str "")
    graduation_year := getField record "Graduation Year" (AValue.str "")
    mentor_confirmation := getField record "Mentor Confirmation" (AValue.str "")
    background_shared := getField record "OB: Mentor Background Shared" (AValue.str "")
    expected_meetings :=
      getField record "Number of Expected Meetings - Student/Mentor" (AValue.int 0)
    completed_meetings :=
      getField record "Total No. of Meetings Completed (Accounted for 1 No Show)" (AValue.int 0)
    notes_summary := getField record "Mentor-Student Notes Summary" (AValue.str "")
    hours_recorded :=
      getField record "[Current + Archived] No. of Hours Recorded" (AValue.str "")
    foundation_student := getField record "Foundation Student" (AValue.str "")
    tuition_paid := getField record "OB: Full Tuition Paid" (AValue.str "")
    program_manager_email :=
      unwrap (getField record "Program Manager Email" (AValue.str "")) (AValue.str "")
    program_manager_name :=
      unwrap (getField record "Program Manager (Text)" (AValue.str "")) (AValue.str "")
    revised_final_paper_due :=
      unwrap (getField record "PM: Student\x27s Revised Final Paper - Due date" (AValue.str ""))
        (AValue.str "")
    student_no_shows :=
      unwrap (getField record
          "[Current + Archived] No. of Student No Shows in Mentor Meetings" (AValue.int 0))
        (AValue.int 0)
    reason_for_interest :=
      unwrap (getField record "Reason for Interest in Areas" (AValue.str "")) (AValue.str "")
    white_label :=
      unwrap (getField record "White Label or Partner Payment Program" (AValue.str ""))
        (AValue.str "")
    previous_coursework :=
      unwrap (getField record "Previous Coursework" (AValue.str "")) (AValue.str "")
    interview_notes :=
      unwrap (getField record "Interview Notes For The Mentor" (AValue.str "")) (AValue.str "")
    preferred_name := getField record "Preferred Name" (AValue.str "")
    student_status := getField record "PM: Student Status in Program" (AValue.str "")
    current_grade := getField record "Current Grade in School" (AValue.str "")
    country :=
      unwrap (getField record "Country of Residence (single select)" (AValue.str ""))
        (AValue.str "")
    writing_coach_name := getField record "Writing Coach Name (Text)" (AValue.str "")
    writing_coach_email :=
      unwrap (getField record "Writing Coach Email" (AValue.str "")) (AValue.str "")
    publication_specialist_name :=
      getField record "Publication Specialist (Text)" (AValue.str "")
    publication_specialist_email :=
      unwrap (getField record "Publication Specialist Email" (AValue.str "")) (AValue.str "")
    publication_marker :=
      unwrap (getField record "publication marker" (AValue.str "")) (AValue.str "")
    publication_status :=
      unwrap (getField record "PS: Latest Publication Outcome - Latest" (AValue.str ""))
        (AValue.str "")
    mentor_hourly_rate := getField record "FN: Mentor Hourly Base Rate" AValue.null
    evaluation_form_link :=
      unwrap (getField record "Evaluation form link" (AValue.str "")) (AValue.str "")
    revised_paper_upload :=
      getField record "Revised Final Paper upload (from Mentor-Student Progress Up Date)"
        (AValue.list [])
    mentor_payment_status :=
      unwrap (getField record "FN: Mentor Payment Status (Total)" (AValue.str ""))
        (AValue.str "")
    payment_date_1 :=
      unwrap (getField record "FN: 1st Payment date to Mentor" (AValue.str "")) (AValue.str "")
    payment_date_2 :=
      unwrap (getField record "FN: 2nd Payment date to Mentor" (AValue.str "")) (AValue.str "")
    payment_date_3 :=
      unwrap (getField record "FN: 3rd Pay Date" (AValue.str "")) (AValue.str "") }

/-- The canonical-shape invariant claimed by the spec for a normalized
field: a plain scalar/string, or a list whose entries are all attachment
objects — never any other list. -/
def canonicalField (v : AValue) : Bool :=
  match v with
  | AValue.list vs =>
    vs.all (fun w => match w with | AValue.att _ _ => true | _ => false)
  | _ => true

/-- Shape precondition for the unwrap lemma: a raw value is not a list
whose first level contains another list (Airtable lookup/rollup columns
wrap scalars one level deep). -/
def noNestedList : AValue → Bool
  | AValue.list vs => vs.all (fun w => !w.isList)
  | _ => true

/-! ## Derived view helpers (src/app.py lines 601-643) -/

/-- is_overdue (src/app.py lines 633-643).  The due date parses to the
midnight datetime of its day; any parse failure is swallowed by the bare
except and yields False. -/
def is_overdue (due_date_str : Option String) (status : String)
    (now : PyDateTime) : Bool :=
  if status = "Submitted" then false
  else
    match due_date_str with
    | none => false
    | some s =>
      if s = "" then false
      else
        match parseYmd s with
        | none => false
        | some d => dtLt (PyDateTime.mk d 0) now

/-- normalize_tuition_paid (src/app.py lines 616-631).  Falsy values and
the em-dash placeholder are returned unchanged; otherwise the stripped,
lower-cased text is classified, negative markers before positive ones. -/
def normalize_tuition_paid (value : String) : String :=
  if value = "" ∨ value = "—" then value
  else
    let v := pyLower (pyStrip value)
    if v = "yes" then "Yes"
    else if v = "no" then "No"
    else if pyContains v "pending" || pyContains v "clarification" then "No"
    else if pyContains v "paid" || pyContains v "pay" then "Yes"
    else "No"

/-- due_date_sort_key (src/app.py lines 601-614): the key of a student
record is a pair (tier, raw date string).  A truthy, parseable string
due date lands in tier 0 when the date is today or later and in tier 1
when it is strictly past; everything else — falsy value, unparseable
string, or a non-string value (on which strptime raises into the bare
except) — lands in tier 2 with the sentinel secondary key. -/
def due_date_sort_key (s : StudentRecord) (today : PyDate) : Nat × String :=
  match s.revised_final_paper_due with
  | AValue.str raw =>
    if raw = "" then (2, "9999-99-99")
    else
      match parseYmd raw with
      | none => (2, "9999-99-99")
      | some d => if dateLt d today then (1, raw) else (0, raw)
  | _ => (2, "9999-99-99")

/-- Python tuple < on the sort keys (Nat then string, lexicographic). -/
def keyLt (k1 k2 : Nat × String) : Bool :=
  if k1.1 < k2.1 then true
  else if k2.1 < k1.1 then false
  else pyStrLt k1.2 k2.2

/-- A student record with every field at its parse-time default and the
given id and revised-final-paper due value; used to run the view helpers
on concrete inputs. -/
def studentWithDue (id : String) (due : AValue) : StudentRecord :=
  { id := id
    mentor_emails := []
    name := AValue.str "Unknown"
    research_area := AValue.str ""
    city := AValue.str ""
    graduation_year := AValue.str ""
    mentor_confirmation := AValue.str ""
    background_shared := AValue.str ""
    expected_meetings := AValue.int 0
    completed_meetings := AValue.int 0
    notes_summary := AValue.str ""
    hours_recorded := AValue.str ""
    foundation_student := AValue.str ""
    tuition_paid := AValue.str ""
    program_manager_email := AValue.str ""
    program_manager_name := AValue.str ""
    revised_final_paper_due := due
    student_no_shows := AValue.int 0
    reason_for_interest := AValue.str ""
    white_label := AValue.str ""
    previous_coursework := AValue.str ""
    interview_notes := AValue.str ""
    preferred_name := AValue.str ""
    student_status := AValue.str ""
    current_grade := AValue.str ""
    country := AValue.str ""
    writing_coach_name := AValue.str ""
    writing_coach_email := AValue.str ""
    publication_specialist_name := AValue.str ""
    publication_specialist_email := AValue.str ""
    publication_marker := AValue.str ""
    publication_status := AValue.str ""
    mentor_hourly_rate := AValue.null
    evaluation_form_link := AValue.str ""
    revised_paper_upload := AValue.list []
    mentor_payment_status := AValue.str ""
    payment_date_1 := AValue.str ""
    payment_date_2 := AValue.str ""
    payment_date_3 := AValue.str "" }

/-! ## Record store gateway (src/app.py lines 384-512)

Each query function builds a filter from its argument and hands it to
the remote table; the table call is modelled as an oracle from the
derived filter key to either an error (any raised transport/query
exception) or the raw record list.  The whole body runs inside
try/except Exception, so an error is reported and degraded to []. -/

/-- The name-based join key: the part of the student display name before
the first "|", stripped (src/app.py lines 427, 463, 486). -/
def nameJoinKey (student_name : String) : String :=
  pyStrip (String.mk ((splitOnChar '|' student_name.toList).headD student_name.toList))

/-- The email key used in the student queries: stripped, lower-cased
(src/app.py lines 388, 406). -/
def emailKey (mentor_email : String) : String :=
  pyLower (pyStrip mentor_email)

/-- get_students_for_mentor (src/app.py lines 384-400): on any store
error, an empty list; otherwise every raw record parsed. -/
def get_students_for_mentor (store : String → Except String (List RawRecord))
    (mentor_email : String) : List StudentRecord :=
  match store (emailKey mentor_email) with
  | Except.error _ => []
  | Except.ok records => records.map parse_student_record

/-- get_prospective_students (src/app.py lines 402-419): same shape as
get_students_for_mentor with a different filter on the same table. -/
def get_prospective_students (store : String → Except String (List RawRecord))
    (mentor_email : String) : List StudentRecord :=
  match store (emailKey mentor_email) with
  | Except.error _ => []
  | Except.ok records => records.map parse_student_record

/-- The submission file columns collected per deadline record
(SUBMISSION_FIELDS, src/app.py lines 149-158). -/
def SUBMISSION_FIELDS : List String :=
  ["Syllabus Submission (From Mentor)",
   "Research Question",
   "Research Proposal",
   "Research Outline",
   "Milestone",
   "Final Paper",
   "Revised Final Paper",
   "Target Publication Submission"]

structure Deadline where
  id : String
  name : String
  dtype : String
  due_date : String
  status : String
  date_submitted : String
  submissions : List (String × AValue)

/-- One deadline record (src/app.py lines 431-449); the date/status
columns are served as strings by the store. -/
def parseDeadlineRecord (r : RawRecord) : Deadline :=
  { id := r.id
    name := getStrField r "Deadline Name"
    dtype := getStrField r "Deadline Type"
    due_date := getStrField r "Due Date (in use, updated to reflect student\x27s timeline)"
    status := getStrField r "Deadline Status"
    date_submitted := getStrField r "Date Submitted"
    submissions := SUBMISSION_FIELDS.filterMap (fun f =>
      match getField r f AValue.null with
      | AValue.null => none
      | v => if v.pyTruthy then some (f, v) else none) }

/-- Sort key of a deadline: its due date string or the end-of-list
sentinel (src/app.py line 452). -/
def deadlineSortKey (d : Deadline) : String :=
  if d.due_date = "" then "9999-99-99" else d.due_date

def deadlineLt (a b : Deadline) : Bool :=
  pyStrLt (deadlineSortKey a) (deadlineSortKey b)

/-- get_deadlines_for_student (src/app.py lines 421-456). -/
def get_deadlines_for_student (store : String → Except String (List RawRecord))
    (student_name : String) : List Deadline :=
  match store (nameJoinKey student_name) with
  | Except.error _ => []
  | Except.ok records => sortByLt deadlineLt (records.map parseDeadlineRecord)

structure MeetingNote where
  date : String
  notes : String

def noteSortKey (n : MeetingNote) : String :=
  if n.date = "" then "0000-00-00" else n.date

/-- Comparison for sorted(..., reverse=True): strictly greater first. -/
def noteRevLt (a b : MeetingNote) : Bool :=
  pyStrLt (noteSortKey b) (noteSortKey a)

/-- get_meeting_notes_for_student (src/app.py lines 458-479): records of
type "Mentor Update" joined by the name key, newest first. -/
def get_meeting_notes_for_student (store : String → Except String (List RawRecord))
    (student_name : String) : List MeetingNote :=
  match store (nameJoinKey student_name) with
  | Except.error _ => []
  | Except.ok records =>
    sortByLt noteRevLt (records.map (fun r =>
      MeetingNote.mk (getStrField r "Date of meeting")
        (getStrField r "Meeting Notes Between Mentor & Student")))

structure EvalItem where
  created_time : String
  attachments : List (String × String)

def evalSortKey (i : EvalItem) : String :=
  if i.created_time = "" then "0000-00-00" else i.created_time

def evalRevLt (a b : EvalItem) : Bool :=
  pyStrLt (evalSortKey b) (evalSortKey a)

/-- One evaluation record (src/app.py lines 491-506): attachments from
the "MFFF - Evaluation form" field that are objects with a truthy url,
keeping (filename or "Download", url). -/
def parseEvalRecord (r : RawRecord) : EvalItem :=
  { created_time := r.createdTime
    attachments :=
      match getField r "MFFF - Evaluation form" AValue.null with
      | AValue.list l => l.filterMap (fun v =>
          match v with
          | AValue.att fn (some url) =>
            if url = "" then none else some (fn.getD "Download", url)
          | _ => none)
      | _ => [] }

/-- get_eval_feedback_for_student (src/app.py lines 481-512): records of
type "Evaluation & Feedback" joined by the name key, newest first. -/
def get_eval_feedback_for_student (store : String → Except String (List RawRecord))
    (student_name : String) : List EvalItem :=
  match store (nameJoinKey student_name) with
  | Except.error _ => []
  | Except.ok records => sortByLt evalRevLt (records.map parseEvalRecord)

/-! ## Session state machine (src/app.py lines 287-303, 645-884)

The st.session_state keys the source reads or writes, with the
initialization defaults of lines 287-303.  is_foundation_volunteer has
no explicit initialization; it is read through .get(..., False), so the
initial state carries false.  Each user-visible control is an action;
a handler can only fire when the page that renders it is shown, so each
action is guarded by the same conditions that gate its widget. -/

structure Mentor where
  id : String
  name : String
  email : String
  is_foundation_volunteer : Bool

structure SessionState where
  authenticated : Bool
  mentor_name : Option String
  mentor_email : Option String
  is_preview : Bool
  magic_link_sent : Bool
  team_unlocked : Bool
  selected_student_name : Option String
  selected_prospective_student : Option String
  is_foundation_volunteer : Bool

def initState : SessionState :=
  { authenticated := false
    mentor_name := none
    mentor_email := none
    is_preview := false
    magic_link_sent := false
    team_unlocked := false
    selected_student_name := none
    selected_prospective_student := none
    is_foundation_volunteer := false }

/-- The session-mutating interactions.  magic_link_login carries the
outcome of verify_magic_token on the URL token and of the mentor lookup
for the verified email; send_magic_link carries the mentor lookup result
and whether the email dispatch succeeded; team_unlock carries the key
the user typed; preview_as carries the mentor lookup result for the
previewed email. -/
inductive SessionAction where
  | magic_link_login (verified_email : Option String) (mentor : Option Mentor)
  | send_magic_link (mentor : Option Mentor) (send_ok : Bool)
  | send_another_link
  | team_unlock (entered_key : String)
  | preview_as (mentor : Option Mentor)
  | logout
  | refresh_data
  | select_student (name : String)
  | back_to_list
  | select_prospective (name : String)
  | back_to_prospective_list

/-- One transition of the session state; admin_key is the configured
ADMIN_KEY secret. -/
def step (admin_key : String) (s : SessionState) : SessionAction → SessionState
  | SessionAction.magic_link_login verified_email mentor =>
    -- check_magic_link_token (lines 646-664): only with a token present
    -- and not authenticated; both the verify and the lookup must succeed.
    if s.authenticated then s
    else
      match verified_email with
      | none => s
      | some _ =>
        match mentor with
        | none => s
        | some m =>
          { s with authenticated := true
                   mentor_name := some m.name
                   mentor_email := some m.email
                   is_foundation_volunteer := m.is_foundation_volunteer
                   is_preview := false }
  | SessionAction.send_magic_link mentor send_ok =>
    -- login form (lines 787-798): rendered when unauthenticated and no
    -- link was just sent; flag set only if lookup and dispatch succeed.
    if s.authenticated then s
    else if s.magic_link_sent then s
    else
      match mentor with
      | none => s
      | some _ => if send_ok then { s with magic_link_sent := true } else s
  | SessionAction.send_another_link =>
    -- lines 774-776
    if s.authenticated then s
    else if s.magic_link_sent then { s with magic_link_sent := false } else s
  | SessionAction.team_unlock entered_key =>
    -- team unlock form (lines 826-835): rendered on the login page only
    -- while still locked; sets the flag only on the exact admin key.
    if s.authenticated then s
    else if s.team_unlocked then s
    else if entered_key = admin_key then { s with team_unlocked := true } else s
  | SessionAction.preview_as mentor =>
    -- preview form (lines 805-819): rendered on the login page only when
    -- team_unlocked; borrows the looked-up mentor's identity.
    if s.authenticated then s
    else if s.team_unlocked then
      match mentor with
      | none => s
      | some m =>
        { s with authenticated := true
                 mentor_name := some m.name
                 mentor_email := some m.email
                 is_foundation_volunteer := m.is_foundation_volunteer
                 is_preview := true }
    else s
  | SessionAction.logout =>
    -- logout button (lines 862-867), dashboard only.
    if s.authenticated then
      { s with authenticated := false
               mentor_name := none
               mentor_email := none
               is_preview := false }
    else s
  | SessionAction.refresh_data =>
    -- lines 858-860: clears the query cache, session state unchanged.
    s
  | SessionAction.select_student name =>
    if s.authenticated then { s with selected_student_name := some name } else s
  | SessionAction.back_to_list =>
    if s.authenticated then { s with selected_student_name := none } else s
  | SessionAction.select_prospective name =>
    if s.authenticated then { s with selected_prospective_student := some name } else s
  | SessionAction.back_to_prospective_list =>
    if s.authenticated then { s with selected_prospective_student := none } else s

/-- Run a list of interactions from a state. -/
def runActions (admin_key : String) (s : SessionState) : List SessionAction → SessionState
  | [] => s
  | a :: tr => runActions admin_key (step admin_key s a) tr

end MentorPortal

namespace MentorPortal

/-! ## Claim theorems for the token service -/

/-- C1: verify_magic_token fails closed.  For every token it returns a
value (the embedding is total, mirroring the except clause that catches
SignatureExpired and BadSignature): none on a malformed token, none on a
signature mismatch, none whenever the age exceeds max_age regardless of
signature validity, and some claim exactly when the token is well formed,
correctly signed over its payload and timestamp with the fixed salt, and
not older than max_age — no partial-validity results. -/
theorem verify_fails_closed :
    ∀ (sign : String → String → String → Nat → String)
      (secret : String) (token : TokenWire) (maxAge now : Nat),
      (∀ r, token = TokenWire.garbage r →
        verify_magic_token sign secret token maxAge now = none)
      ∧ (∀ p ts sg, token = TokenWire.parsed p ts sg →
          sg ≠ sign secret "magic-link" p ts →
          verify_magic_token sign secret token maxAge now = none)
      ∧ (∀ p ts sg, token = TokenWire.parsed p ts sg →
          now - ts > maxAge →
          verify_magic_token sign secret token maxAge now = none)
      ∧ (∀ e, verify_magic_token sign secret token maxAge now = some e ↔
          ∃ p ts, token = TokenWire.parsed p ts (sign secret "magic-link" p ts)
            ∧ now - ts ≤ maxAge ∧ e = p) := by
  intro sign secret token maxAge now
  refine ⟨?_, ?_, ?_, ?_⟩
  · intro r hr
    subst hr
    rfl
  · intro p ts sg ht hsig
    subst ht
    simp [verify_magic_token, itsdangerousLoads, hsig]
  · intro p ts sg ht hage
    subst ht
    simp only [verify_magic_token, itsdangerousLoads]
    by_cases hsig : sg = sign secret "magic-link" p ts
    · simp [hsig, hage]
    · simp [hsig]
  · intro e
    cases token with
    | garbage r =>
      constructor
      · intro h
        exact Option.noConfusion h
      · rintro ⟨p, ts, h, -, -⟩
        cases h
    | parsed p ts sg =>
      constructor
      · intro h
        by_cases hsig : sg = sign secret "magic-link" p ts
        · by_cases hage : now - ts > maxAge
          · exact absurd h (by simp [verify_magic_token, itsdangerousLoads, hsig, hage])
          · have hep : e = p := by
              simp [verify_magic_token, itsdangerousLoads, hsig, hage] at h
              exact h.symm
            exact ⟨p, ts, by rw [hsig], by omega, hep⟩
        · exact absurd h (by simp [verify_magic_token, itsdangerousLoads, hsig])
      · rintro ⟨p1, ts1, h1, hage1, he⟩
        injection h1 with hp hts hsg
        subst hp
        subst hts
        subst he
        subst hsg
        have hage2 : ¬ (now - ts > maxAge) := by omega
        simp [verify_magic_token, itsdangerousLoads, hage2]

/-- Closed check for C1: evaluates the theorem on a malformed token. -/
theorem verify_fails_closed_check :
    verify_magic_token (fun _ _ p _ => p) "secret" (TokenWire.garbage "xyz") 3600 100 = none :=
  (verify_fails_closed (fun _ _ p _ => p) "secret" (TokenWire.garbage "xyz") 3600 100).1 "xyz" rfl

/-- C2: round-trip.  For every claim (email), secret and signing function,
a token issued at time t verifies back to exactly that claim at any time
t2 with age t2 - t within the default max_age 3600, using the same secret
and the fixed salt "magic-link". -/
theorem token_round_trip :
    ∀ (sign : String → String → String → Nat → String)
      (secret email : String) (now now2 : Nat),
      now2 - now ≤ 3600 →
      verify_magic_token sign secret (generate_magic_token sign secret email now)
        3600 now2 = some email := by
  intro sign secret email now now2 h
  simp only [verify_magic_token, generate_magic_token, itsdangerousLoads, if_pos rfl]
  have hage : ¬ (now2 - now > 3600) := by omega
  simp [hage]

/-- Closed check for C2 at a concrete signer, secret, claim and times. -/
theorem token_round_trip_check :
    verify_magic_token (fun sec sal p _t => String.append sec (String.append sal p))
      "k" (generate_magic_token (fun sec sal p _t => String.append sec (String.append sal p))
        "k" "ada@example.com" 0) 3600 10 = some "ada@example.com" :=
  token_round_trip _ "k" "ada@example.com" 0 10 (by omega)

/-- C3: the overdue predicate.  is_overdue returns true exactly when the
status is not "Submitted", a due date is present and parses, and that due
date (as the midnight of its day) is strictly before the current moment;
a record with no due date is never overdue.  The stated concrete cases
are evaluated at a current moment in 2026. -/
theorem is_overdue_spec :
    (∀ (due : Option String) (status : String) (now : PyDateTime),
        is_overdue due status now = true ↔
          (status ≠ "Submitted" ∧
            ∃ s d, due = some s ∧ parseYmd s = some d ∧
              dtLt (PyDateTime.mk d 0) now = true))
    ∧ is_overdue (some "2020-01-01") "Not Submitted"
        (PyDateTime.mk (PyDate.mk 2026 10 12) 1) = true
    ∧ is_overdue (some "2020-01-01") "Submitted"
        (PyDateTime.mk (PyDate.mk 2026 10 12) 1) = false
    ∧ is_overdue none "Not Submitted"
        (PyDateTime.mk (PyDate.mk 2026 10 12) 1) = false
    ∧ (∀ (status : String) (now : PyDateTime), is_overdue none status now = false) := by
  refine ⟨?_, by decide, by decide, by decide, ?_⟩
  · intro due status now
    by_cases hst : status = "Submitted"
    · simp [is_overdue, hst]
    · cases due with
      | none => simp [is_overdue, hst]
      | some s =>
        by_cases hs : s = ""
        · subst hs
          have h0 : parseYmd "" = none := by decide
          simp [is_overdue, hst, h0]
        · cases hp : parseYmd s with
          | none => simp [is_overdue, hst, hs, hp]
          | some d => simp [is_overdue, hst, hs, hp]
  · intro status now
    cases instDecidableEqString status "Submitted" with
    | isTrue h => simp [is_overdue, h]
    | isFalse h => simp [is_overdue, h]

/-- C5 counterexample: the empty value and the em-dash placeholder are
returned unchanged by normalize_tuition_paid — not collapsed to a binary
"Yes"/"No" as the claim states for every input. -/
theorem tuition_passthrough_counterexample :
    normalize_tuition_paid "" = "" ∧ normalize_tuition_paid "—" = "—"
    ∧ ("" : String) ≠ "Yes" ∧ ("" : String) ≠ "No"
    ∧ ("—" : String) ≠ "Yes" ∧ ("—" : String) ≠ "No" := by
  refine ⟨rfl, rfl, by decide, by decide, by decide, by decide⟩

/-- C5 (amended): every non-empty value other than the em-dash
placeholder collapses to a binary "Yes" or "No"; negative markers
("pending", "clarification") are checked before positive markers
("paid", "pay"), so any value whose stripped lower-casing contains a
negative marker resolves to "No" even if it also contains a positive
marker; the stated concrete cases hold. -/
theorem tuition_binary_heuristic :
    (∀ v : String, v ≠ "" → v ≠ "—" →
        (normalize_tuition_paid v = "Yes" ∨ normalize_tuition_paid v = "No"))
    ∧ (∀ v : String, pyContains (pyLower (pyStrip v)) "pending" = true →
        normalize_tuition_paid v = "No")
    ∧ (∀ v : String, pyContains (pyLower (pyStrip v)) "clarification" = true →
        normalize_tuition_paid v = "No")
    ∧ normalize_tuition_paid "Payment Pending Clarification" = "No"
    ∧ normalize_tuition_paid "Full Tuition Paid" = "Yes"
    ∧ normalize_tuition_paid "pending payment" = "No" := by
  refine ⟨?_, ?_, ?_, by decide, by decide, by decide⟩
  · intro v h1 h2
    have hc : ¬ (v = "" ∨ v = "—") := by tauto
    simp only [normalize_tuition_paid, if_neg hc]
    repeat' split
    all_goals simp
  · intro v h
    by_cases h1 : v = ""
    · subst h1; exact absurd h (by decide)
    · by_cases h2 : v = "—"
      · subst h2; exact absurd h (by decide)
      · have hc : ¬ (v = "" ∨ v = "—") := by tauto
        simp only [normalize_tuition_paid, if_neg hc]
        by_cases hy : pyLower (pyStrip v) = "yes"
        · rw [hy] at h; exact absurd h (by decide)
        · by_cases hn : pyLower (pyStrip v) = "no"
          · rw [hn] at h; exact absurd h (by decide)
          · simp only [if_neg hy, if_neg hn, h, Bool.true_or, if_pos]
  · intro v h
    by_cases h1 : v = ""
    · subst h1; exact absurd h (by decide)
    · by_cases h2 : v = "—"
      · subst h2; exact absurd h (by decide)
      · have hc : ¬ (v = "" ∨ v = "—") := by tauto
        simp only [normalize_tuition_paid, if_neg hc]
        by_cases hy : pyLower (pyStrip v) = "yes"
        · rw [hy] at h; exact absurd h (by decide)
        · by_cases hn : pyLower (pyStrip v) = "no"
          · rw [hn] at h; exact absurd h (by decide)
          · simp only [if_neg hy, if_neg hn, h, Bool.or_true, if_pos]

/-- C4 counterexample: within tier 0 the key orders by the raw date
string, not by the date.  strptime accepts the non-zero-padded
"2099-9-1", whose date precedes 2099-10-1, yet the string key sorts it
after — sorting by this key does not order tier 0 by date ascending. -/
theorem sort_key_not_date_ordered :
    parseYmd "2099-9-1" = some (PyDate.mk 2099 9 1)
    ∧ parseYmd "2099-10-1" = some (PyDate.mk 2099 10 1)
    ∧ dateLt (PyDate.mk 2099 9 1) (PyDate.mk 2099 10 1) = true
    ∧ (due_date_sort_key (studentWithDue "sep" (AValue.str "2099-9-1"))
        (PyDate.mk 2026 10 12)).1 = 0
    ∧ (due_date_sort_key (studentWithDue "oct" (AValue.str "2099-10-1"))
        (PyDate.mk 2026 10 12)).1 = 0
    ∧ keyLt (due_date_sort_key (studentWithDue "oct" (AValue.str "2099-10-1"))
          (PyDate.mk 2026 10 12))
        (due_date_sort_key (studentWithDue "sep" (AValue.str "2099-9-1"))
          (PyDate.mk 2026 10 12)) = true
    ∧ (sortByLt
        (fun a b => keyLt (due_date_sort_key a (PyDate.mk 2026 10 12))
          (due_date_sort_key b (PyDate.mk 2026 10 12)))
        [studentWithDue "sep" (AValue.str "2099-9-1"),
         studentWithDue "oct" (AValue.str "2099-10-1")]).map (fun r => r.id)
      = ["oct", "sep"] := by
  decide

/-- C4 (amended): due_date_sort_key is a total three-tier ordering —
tier 0 for a parseable due date that is today or later, tier 1 for a
parseable due date strictly in the past, tier 2 for everything else (no
due date, unparseable or non-string value); within a tier the key orders
by the raw date string ascending (which coincides with date order for
zero-padded ISO dates); on the stated example the sort yields future,
past, none. -/
theorem sort_key_three_tier :
    (∀ (s : StudentRecord) (today : PyDate),
        (due_date_sort_key s today).1 = 0 ∨ (due_date_sort_key s today).1 = 1
          ∨ (due_date_sort_key s today).1 = 2)
    ∧ (∀ (s : StudentRecord) (today : PyDate) (raw : String) (d : PyDate),
        s.revised_final_paper_due = AValue.str raw → parseYmd raw = some d →
          (dateLt d today = false → due_date_sort_key s today = (0, raw))
          ∧ (dateLt d today = true → due_date_sort_key s today = (1, raw)))
    ∧ (∀ (s : StudentRecord) (today : PyDate) (raw : String),
        s.revised_final_paper_due = AValue.str raw → parseYmd raw = none →
          due_date_sort_key s today = (2, "9999-99-99"))
    ∧ (∀ (s : StudentRecord) (today : PyDate),
        (∀ raw, s.revised_final_paper_due ≠ AValue.str raw) →
          due_date_sort_key s today = (2, "9999-99-99"))
    ∧ (∀ (s1 s2 : StudentRecord) (today : PyDate),
        (due_date_sort_key s1 today).1 = (due_date_sort_key s2 today).1 →
          keyLt (due_date_sort_key s1 today) (due_date_sort_key s2 today)
            = pyStrLt (due_date_sort_key s1 today).2 (due_date_sort_key s2 today).2)
    ∧ (sortByLt
        (fun a b => keyLt (due_date_sort_key a (PyDate.mk 2026 10 12))
          (due_date_sort_key b (PyDate.mk 2026 10 12)))
        [studentWithDue "past" (AValue.str "2025-01-01"),
         studentWithDue "future" (AValue.str "2099-01-01"),
         studentWithDue "none" (AValue.str "")]).map (fun r => r.id)
      = ["future", "past", "none"] := by
  refine ⟨?_, ?_, ?_, ?_, ?_, by decide⟩
  · intro s today
    simp only [due_date_sort_key]
    repeat' split
    all_goals simp
  · intro s today raw d hs hp
    by_cases hraw : raw = ""
    · subst hraw
      rw [show parseYmd "" = (none : Option PyDate) from by decide] at hp
      exact Option.noConfusion hp
    · constructor
      · intro hlt
        simp [due_date_sort_key, hs, hraw, hp, hlt]
      · intro hlt
        simp [due_date_sort_key, hs, hraw, hp, hlt]
  · intro s today raw hs hp
    by_cases hraw : raw = ""
    · subst hraw
      simp [due_date_sort_key, hs]
    · simp [due_date_sort_key, hs, hraw, hp]
  · intro s today h
    cases hdue : s.revised_final_paper_due with
    | str raw => exact absurd hdue (h raw)
    | null => simp [due_date_sort_key, hdue]
    | int n => simp [due_date_sort_key, hdue]
    | bool b => simp [due_date_sort_key, hdue]
    | att f u => simp [due_date_sort_key, hdue]
    | list vs => simp [due_date_sort_key, hdue]
  · intro s1 s2 today h
    simp [keyLt, h]

/-- Closed check for the C4 amended theorem: the tier-0 implication at a
concrete record, date and today. -/
theorem sort_key_three_tier_check :
    due_date_sort_key (studentWithDue "r1" (AValue.str "2099-01-01"))
      (PyDate.mk 2026 10 12) = (0, "2099-01-01") :=
  ((sort_key_three_tier.2.1 (studentWithDue "r1" (AValue.str "2099-01-01"))
      (PyDate.mk 2026 10 12) "2099-01-01" (PyDate.mk 2099 1 1) rfl (by decide)).1
    (by decide))

/-- Membership extraction for find?; used by the normalizer lemmas. -/
theorem mem_of_findq {α : Type} (p : α → Bool) :
    ∀ (l : List α) (a : α), l.find? p = some a → a ∈ l := by
  intro l
  induction l with
  | nil =>
    intro a h
    exact Option.noConfusion h
  | cons x xs ih =>
    intro a h
    by_cases hp : p x = true
    · rw [List.find?_cons_of_pos _ hp] at h
      injection h with h
      subst h
      exact List.mem_cons_self x xs
    · rw [List.find?_cons_of_neg _ (by simpa using hp)] at h
      exact List.mem_cons_of_mem x (ih a h)

/-- A looked-up field of a record with no nested list wrappers, fetched
with a non-nested default, has no nested list wrapper. -/
theorem getField_noNested (r : RawRecord) (key : String) (d : AValue)
    (hall : ∀ kv, kv ∈ r.fields → noNestedList kv.2 = true)
    (hd : noNestedList d = true) : noNestedList (getField r key d) = true := by
  unfold getField
  cases hf : r.fields.find? (fun kv => kv.1 == key) with
  | none => exact hd
  | some kv => exact hall kv (mem_of_findq _ _ _ hf)

/-- unwrap never returns a list when its input has no nested list
wrapper and its default is not a list. -/
theorem unwrap_not_list (v d : AValue) (hv : noNestedList v = true)
    (hd : d.isList = false) : (unwrap v d).isList = false := by
  cases v with
  | null => cases d <;> simp_all [unwrap, AValue.isList]
  | str s => simp [unwrap, AValue.isList]
  | int n => simp [unwrap, AValue.isList]
  | bool b => simp [unwrap, AValue.isList]
  | att f u => simp [unwrap, AValue.isList]
  | list vs =>
    cases vs with
    | nil => cases d <;> simp_all [unwrap, AValue.isList]
    | cons w ws =>
      have hw : w.isList = false := by
        simp [noNestedList, List.all_cons] at hv
        simpa using hv.1
      cases w with
      | null => cases d <;> simp_all [unwrap, AValue.isList]
      | str s => simp [unwrap, AValue.isList]
      | int n => simp [unwrap, AValue.isList]
      | bool b => simp [unwrap, AValue.isList]
      | att f u => simp [unwrap, AValue.isList]
      | list us => simp [AValue.isList] at hw

/-- C7 counterexample: fields of _parse_student_record that are not
routed through unwrap are passed through raw.  A lookup-shaped hourly
rate ([50]) survives as a raw single-element list wrapper that is not a
list of attachment objects, violating the claimed invariant (the source
itself re-handles this shape downstream, src/app.py lines 1433-1435). -/
theorem normalizer_list_field_counterexample :
    (parse_student_record (RawRecord.mk "recB" ""
        [("FN: Mentor Hourly Base Rate", AValue.list [AValue.int 50])])).mentor_hourly_rate
      = AValue.list [AValue.int 50]
    ∧ canonicalField (AValue.list [AValue.int 50]) = false := by
  exact ⟨rfl, rfl⟩

/-- C7 (amended): the canonical-shape invariant holds for exactly the
fields the normalizer routes through unwrap — for any raw record whose
field values carry at most one level of list wrapping, none of those
eighteen normalized fields is a list; fields passed through without
unwrap (and the attachment pass-through field) may retain their raw
shape, which downstream formatters handle. -/
theorem unwrap_fields_scalar :
    ∀ (rec : RawRecord),
      (∀ kv, kv ∈ rec.fields → noNestedList kv.2 = true) →
      ((parse_student_record rec).program_manager_email.isList = false
       ∧ (parse_student_record rec).program_manager_name.isList = false
       ∧ (parse_student_record rec).revised_final_paper_due.isList = false
       ∧ (parse_student_record rec).student_no_shows.isList = false
       ∧ (parse_student_record rec).reason_for_interest.isList = false
       ∧ (parse_student_record rec).white_label.isList = false
       ∧ (parse_student_record rec).previous_coursework.isList = false
       ∧ (parse_student_record rec).interview_notes.isList = false
       ∧ (parse_student_record rec).country.isList = false
       ∧ (parse_student_record rec).writing_coach_email.isList = false
       ∧ (parse_student_record rec).publication_specialist_email.isList = false
       ∧ (parse_student_record rec).publication_marker.isList = false
       ∧ (parse_student_record rec).publication_status.isList = false
       ∧ (parse_student_record rec).evaluation_form_link.isList = false
       ∧ (parse_student_record rec).mentor_payment_status.isList = false
       ∧ (parse_student_record rec).payment_date_1.isList = false
       ∧ (parse_student_record rec).payment_date_2.isList = false
       ∧ (parse_student_record rec).payment_date_3.isList = false) := by
  intro rec h
  refine ⟨?_, ?_, ?_, ?_, ?_, ?_, ?_, ?_, ?_, ?_, ?_, ?_, ?_, ?_, ?_, ?_, ?_, ?_⟩
  all_goals exact unwrap_not_list _ _ (getField_noNested rec _ _ h rfl) rfl

/-- Closed check for the C7 amended theorem on a concrete record with a
single-wrapped lookup value. -/
theorem unwrap_fields_scalar_check :
    (parse_student_record (RawRecord.mk "r0" ""
        [("Program Manager Email", AValue.list [AValue.str "pm@example.com"])])
      ).program_manager_email.isList = false :=
  (unwrap_fields_scalar
    (RawRecord.mk "r0" ""
      [("Program Manager Email", AValue.list [AValue.str "pm@example.com"])])
    (by
      intro kv hkv
      rcases List.mem_singleton.mp hkv with h
      subst h
      rfl)).1

/-- Closed check for the C5 amended theorem at concrete inputs. -/
theorem tuition_binary_heuristic_check :
    (normalize_tuition_paid "Deposit received, will pay" = "Yes"
      ∨ normalize_tuition_paid "Deposit received, will pay" = "No")
    ∧ normalize_tuition_paid "PENDING payment" = "No" := by
  refine ⟨?_, ?_⟩
  · exact tuition_binary_heuristic.1 "Deposit received, will pay" (by decide) (by decide)
  · exact tuition_binary_heuristic.2.1 "PENDING payment" (by decide)

/-- C6: gateway error handling.  For every store oracle, if the table
call errors then each query function (students, prospective students,
deadlines, meeting notes, evaluations) returns the empty list; if it
succeeds the function returns exactly the processed record list — a
plain value either way, never an exception or a partial list mixed with
one (the embedding is total). -/
theorem gateway_error_empty :
    ∀ (store : String → Except String (List RawRecord)) (email name err : String),
      (store (emailKey email) = Except.error err →
        (get_students_for_mentor store email = []
          ∧ get_prospective_students store email = []))
      ∧ (store (nameJoinKey name) = Except.error err →
        (get_deadlines_for_student store name = []
          ∧ get_meeting_notes_for_student store name = []
          ∧ get_eval_feedback_for_student store name = []))
      ∧ (∀ recs, store (emailKey email) = Except.ok recs →
          get_students_for_mentor store email = recs.map parse_student_record)
      ∧ (∀ recs, store (nameJoinKey name) = Except.ok recs →
          get_deadlines_for_student store name
            = sortByLt deadlineLt (recs.map parseDeadlineRecord)) := by
  intro store email name err
  refine ⟨?_, ?_, ?_, ?_⟩
  · intro h
    exact ⟨by simp [get_students_for_mentor, h],
           by simp [get_prospective_students, h]⟩
  · intro h
    exact ⟨by simp [get_deadlines_for_student, h],
           by simp [get_meeting_notes_for_student, h],
           by simp [get_eval_feedback_for_student, h]⟩
  · intro recs h
    simp [get_students_for_mentor, h]
  · intro recs h
    simp [get_deadlines_for_student, h]

/-- Closed check for C6 with a store that always fails. -/
theorem gateway_error_empty_check :
    get_students_for_mentor (fun _ => Except.error "transport failure") "a@b.com" = []
    ∧ get_deadlines_for_student (fun _ => Except.error "transport failure") "Student Name" = [] :=
  ⟨((gateway_error_empty (fun _ => Except.error "transport failure")
      "a@b.com" "Student Name" "transport failure").1 rfl).1,
   ((gateway_error_empty (fun _ => Except.error "transport failure")
      "a@b.com" "Student Name" "transport failure").2.1 rfl).1⟩

/-- C8 counterexample: logging in as a foundation volunteer and logging
out leaves is_foundation_volunteer — capability information of the
previously authenticated mentor — set in the session state, so logout
does not clear all identity and capability fields. -/
theorem logout_keeps_capability_flag :
    (step "k" (step "k" initState
        (SessionAction.magic_link_login (some "ada@example.com")
          (some (Mentor.mk "rec1" "Ada" "ada@example.com" true))))
      SessionAction.logout).is_foundation_volunteer = true
    ∧ (step "k" (step "k" initState
        (SessionAction.magic_link_login (some "ada@example.com")
          (some (Mentor.mk "rec1" "Ada" "ada@example.com" true))))
      SessionAction.logout).authenticated = false := ⟨rfl, rfl⟩

/-- C8 (amended): from any authenticated state, logout sets
authenticated to false and clears exactly the identity fields
mentor_name, mentor_email and the preview flag; the capability flag
is_foundation_volunteer, the admin-unlock flag and the selection
pointers are left unchanged. -/
theorem logout_clears_identity_fields :
    ∀ (admin_key : String) (s : SessionState), s.authenticated = true →
      step admin_key s SessionAction.logout
        = { s with authenticated := false
                   mentor_name := none
                   mentor_email := none
                   is_preview := false } := by
  intro k s h
  simp [step, h]

/-- Closed check for the C8 amended theorem on a concrete authenticated
session. -/
theorem logout_clears_identity_fields_check :
    step "k" (SessionState.mk true (some "Ada") (some "ada@example.com") true false
        true (some "S1") none true) SessionAction.logout
      = SessionState.mk false none none false false true (some "S1") none true :=
  logout_clears_identity_fields "k"
    (SessionState.mk true (some "Ada") (some "ada@example.com") true false
      true (some "S1") none true) rfl

/-- One step cannot create a state violating the preview invariant:
if is_preview implies team_unlocked before, it does after. -/
theorem step_preview_unlocked (k : String) (s : SessionState) (a : SessionAction)
    (h : s.is_preview = true → s.team_unlocked = true) :
    (step k s a).is_preview = true → (step k s a).team_unlocked = true := by
  cases a <;> simp only [step] <;> (repeat' split) <;> (first | exact h | simp_all)

/-- The unlock flag can only appear through the team_unlock action with
the exact admin key. -/
theorem step_unlock_origin (k : String) (s : SessionState) (a : SessionAction)
    (h : (step k s a).team_unlocked = true) :
    s.team_unlocked = true ∨ a = SessionAction.team_unlock k := by
  cases a <;> simp only [step] at h <;> (repeat' split at h) <;> simp_all

theorem run_preview_unlocked (k : String) :
    ∀ (tr : List SessionAction) (s : SessionState),
      (s.is_preview = true → s.team_unlocked = true) →
      (runActions k s tr).is_preview = true →
      (runActions k s tr).team_unlocked = true := by
  intro tr
  induction tr with
  | nil => intro s h hp; exact h hp
  | cons a tr ih =>
    intro s h hp
    exact ih (step k s a) (step_preview_unlocked k s a h) hp

theorem run_unlock_origin (k : String) :
    ∀ (tr : List SessionAction) (s : SessionState),
      (runActions k s tr).team_unlocked = true →
      s.team_unlocked = true ∨ SessionAction.team_unlock k ∈ tr := by
  intro tr
  induction tr with
  | nil => intro s h; exact Or.inl h
  | cons a tr ih =>
    intro s h
    rcases ih (step k s a) h with h1 | h2
    · rcases step_unlock_origin k s a h1 with h3 | h4
      · exact Or.inl h3
      · refine Or.inr ?_
        rw [← h4]
        exact List.mem_cons_self a tr
    · exact Or.inr (List.mem_cons_of_mem a h2)

/-- C9: in every session state reachable from the initial state,
is_preview is set only if the admin-key gate passed: the final state has
team_unlocked set and the interaction history contains a team_unlock
action carrying exactly the configured admin key (the only transition
that can set the unlock flag, which in turn gates the preview form). -/
theorem preview_requires_admin_unlock :
    ∀ (admin_key : String) (tr : List SessionAction),
      (runActions admin_key initState tr).is_preview = true →
      ((runActions admin_key initState tr).team_unlocked = true
        ∧ SessionAction.team_unlock admin_key ∈ tr) := by
  intro k tr hp
  have hu : (runActions k initState tr).team_unlocked = true :=
    run_preview_unlocked k tr initState (fun h0 => Bool.noConfusion h0) hp
  refine ⟨hu, ?_⟩
  rcases run_unlock_origin k tr initState hu with h1 | h2
  · exact Bool.noConfusion h1
  · exact h2

/-- Closed check for C9: a trace that unlocks with the admin key and
then previews reaches a preview state, and the theorem recovers the
unlock action from it. -/
theorem preview_requires_admin_unlock_check :
    (runActions "adminK" initState
        [SessionAction.team_unlock "adminK",
         SessionAction.preview_as (some (Mentor.mk "m1" "Bea" "bea@example.com" false))]
      ).is_preview = true
    ∧ ((runActions "adminK" initState
          [SessionAction.team_unlock "adminK",
           SessionAction.preview_as (some (Mentor.mk "m1" "Bea" "bea@example.com" false))]
        ).team_unlocked = true
      ∧ SessionAction.team_unlock "adminK" ∈
          [SessionAction.team_unlock "adminK",
           SessionAction.preview_as (some (Mentor.mk "m1" "Bea" "bea@example.com" false))]) :=
  ⟨by decide,
   preview_requires_admin_unlock "adminK"
     [SessionAction.team_unlock "adminK",
      SessionAction.preview_as (some (Mentor.mk "m1" "Bea" "bea@example.com" false))]
     (by decide)⟩

/-- C10: logout leaves team_unlocked unchanged — both as a single-step
frame property from any state and over any interaction history extended
by a logout — so a session that unlocked the team preview form stays
unlocked after logging out. -/
theorem logout_preserves_team_unlocked :
    (∀ (admin_key : String) (s : SessionState),
        (step admin_key s SessionAction.logout).team_unlocked = s.team_unlocked)
    ∧ (∀ (admin_key : String) (tr : List SessionAction),
        (runActions admin_key initState (tr ++ [SessionAction.logout])).team_unlocked
          = (runActions admin_key initState tr).team_unlocked) := by
  have h1 : ∀ (k : String) (s : SessionState),
      (step k s SessionAction.logout).team_unlocked = s.team_unlocked := by
    intro k s
    simp only [step]
    split <;> rfl
  refine ⟨h1, ?_⟩
  intro k tr
  have happ : ∀ (t1 t2 : List SessionAction) (s : SessionState),
      runActions k s (t1 ++ t2) = runActions k (runActions k s t1) t2 := by
    intro t1
    induction t1 with
    | nil => intro t2 s; rfl
    | cons a t1 ih => intro t2 s; exact ih t2 (step k s a)
  rw [happ tr [SessionAction.logout] initState]
  exact h1 k (runActions k initState tr)

end MentorPortal
